import Mathlib

/-!
Shallow embedding of the agent-based predator/prey simulation core
(src/utils/math.rs, src/config/parameters.rs, src/simulation/agent.rs,
src/simulation/predator.rs, src/simulation/prey.rs, src/simulation/world.rs)
and proofs about its tick cycle.

Floating point numbers are modelled as real numbers; random draws
(rng.gen in the source) are passed in as explicit real arguments.
-/

open Classical

noncomputable section

/-- Model of Vector2 from src/utils/math.rs: a 2-D vector of reals. -/
structure Vector2 where
  x : ℝ
  y : ℝ

/-- Vector2::zero. -/
def Vector2.zero : Vector2 := ⟨0, 0⟩

/-- Vector2::magnitude: sqrt of x*x + y*y. -/
def Vector2.magnitude (v : Vector2) : ℝ := Real.sqrt (v.x * v.x + v.y * v.y)

/-- Vector2::magnitude_squared. -/
def Vector2.magnitude_squared (v : Vector2) : ℝ := v.x * v.x + v.y * v.y

/-- Vector2::normalize: divide by magnitude when positive, else zero. -/
def Vector2.normalize (v : Vector2) : Vector2 :=
  if 0 < v.magnitude then ⟨v.x / v.magnitude, v.y / v.magnitude⟩ else Vector2.zero

/-- Vector2::scale. -/
def Vector2.scale (v : Vector2) (s : ℝ) : Vector2 := ⟨v.x * s, v.y * s⟩

/-- Vector2::limit: rescale to the bound when the magnitude exceeds it. -/
def Vector2.limit (v : Vector2) (bound : ℝ) : Vector2 :=
  if bound < v.magnitude then (v.normalize).scale bound else v

/-- Vector2::add. -/
def Vector2.add (v w : Vector2) : Vector2 := ⟨v.x + w.x, v.y + w.y⟩

/-- Vector2::subtract. -/
def Vector2.subtract (v w : Vector2) : Vector2 := ⟨v.x - w.x, v.y - w.y⟩

/-- distance: Euclidean distance between two points. -/
def distance (p1 p2 : Vector2) : ℝ := (p1.subtract p2).magnitude

/-- distance_torus from src/utils/math.rs: per-axis wrapped deltas, then sqrt. -/
def distance_torus (p1 p2 : Vector2) (width height : ℝ) : ℝ :=
  let dx := |p1.x - p2.x|
  let dy := |p1.y - p2.y|
  let dx_wrapped := min dx (width - dx)
  let dy_wrapped := min dy (height - dy)
  Real.sqrt (dx_wrapped * dx_wrapped + dy_wrapped * dy_wrapped)

/-- from_angle: vector from polar coordinates. -/
def from_angle (angle mag : ℝ) : Vector2 := ⟨Real.cos angle * mag, Real.sin angle * mag⟩

/-- wrap_position: add or subtract the dimension once per axis if outside bounds. -/
def wrap_position (pos : Vector2) (width height : ℝ) : Vector2 :=
  let x := if pos.x < 0 then pos.x + width else if width ≤ pos.x then pos.x - width else pos.x
  let y := if pos.y < 0 then pos.y + height else if height ≤ pos.y then pos.y - height else pos.y
  ⟨x, y⟩

/-- clamp_position: clamp both axes independently to the world rectangle. -/
def clamp_position (pos : Vector2) (width height : ℝ) : Vector2 :=
  ⟨min (max pos.x 0) width, min (max pos.y 0) height⟩

/-- PredatorParameters from src/config/parameters.rs. -/
structure PredatorParameters where
  initial_energy : ℝ
  max_speed : ℝ
  perception_radius : ℝ
  capture_distance : ℝ
  energy_per_tick : ℝ
  energy_gain_from_prey : ℝ
  reproduction_threshold : ℝ
  reproduction_cost : ℝ
  initial_count : ℕ

/-- PreyParameters from src/config/parameters.rs. -/
structure PreyParameters where
  initial_energy : ℝ
  max_speed : ℝ
  detection_radius : ℝ
  flee_distance : ℝ
  energy_regeneration : ℝ
  energy_loss_fleeing : ℝ
  reproduction_threshold : ℝ
  reproduction_cost : ℝ
  initial_count : ℕ

/-- BoundaryType from src/config/parameters.rs. -/
inductive BoundaryType where
  | Wraparound
  | Walls

/-- WorldParameters from src/config/parameters.rs. -/
structure WorldParameters where
  width : ℝ
  height : ℝ
  boundary_type : BoundaryType
  food_spawn_rate : ℝ
  food_energy : ℝ
  enable_food : Bool

/-- SimulationParameters from src/config/parameters.rs. -/
structure SimulationParameters where
  tick_rate : ℝ
  max_agents : ℕ
  enable_reproduction : Bool
  dt : ℝ

/-- Parameters: the complete validated configuration. -/
structure Parameters where
  predator : PredatorParameters
  prey : PreyParameters
  world : WorldParameters
  simulation : SimulationParameters

/-- Parameters::validate: first violated constraint wins, in source order. -/
def Parameters.validate (p : Parameters) : Except String Unit :=
  if p.world.width ≤ 0 ∨ p.world.height ≤ 0 then
    Except.error "World dimensions must be positive"
  else if p.predator.max_speed ≤ 0 ∨ p.prey.max_speed ≤ 0 then
    Except.error "Agent speeds must be positive"
  else if p.predator.initial_energy ≤ 0 ∨ p.prey.initial_energy ≤ 0 then
    Except.error "Initial energy must be positive"
  else if p.simulation.tick_rate ≤ 0 then
    Except.error "Tick rate must be positive"
  else
    Except.ok ()

/-- AgentType from src/simulation/agent.rs. -/
inductive AgentType where
  | Predator
  | Prey

/-- BaseAgent from src/simulation/agent.rs; AgentId is modelled as a natural number. -/
structure BaseAgent where
  id : ℕ
  agent_type : AgentType
  position : Vector2
  velocity : Vector2
  energy : ℝ
  age : ℕ
  max_speed : ℝ

/-- BaseAgent::new: fresh agent at zero velocity and age zero. -/
def BaseAgent.new (id : ℕ) (t : AgentType) (position : Vector2)
    (initial_energy max_speed : ℝ) : BaseAgent :=
  ⟨id, t, position, Vector2.zero, initial_energy, 0, max_speed⟩

/-- WorldState from src/simulation/agent.rs: the per-tick perception snapshot.
The two nearby lists are single flat lists of (id, position, distance) triples. -/
structure WorldState where
  width : ℝ
  height : ℝ
  boundary_type : BoundaryType
  nearby_predators : List (ℕ × Vector2 × ℝ)
  nearby_prey : List (ℕ × Vector2 × ℝ)
  dt : ℝ

/-- AgentAction from src/simulation/agent.rs. -/
inductive AgentAction where
  | None
  | Move (position : Vector2) (velocity : Vector2)
  | Consumed (target_id : ℕ)
  | Reproduce (position : Vector2) (energy : ℝ)

/-- BaseAgent::update_position: integrate velocity, then apply the boundary policy. -/
def BaseAgent.update_position (a : BaseAgent) (ws : WorldState) : BaseAgent :=
  let new_position := a.position.add (a.velocity.scale ws.dt)
  { a with position :=
      match ws.boundary_type with
      | BoundaryType.Wraparound => wrap_position new_position ws.width ws.height
      | BoundaryType.Walls => clamp_position new_position ws.width ws.height }

/-- BaseAgent::set_velocity: store the velocity limited to max_speed. -/
def BaseAgent.set_velocity (a : BaseAgent) (v : Vector2) : BaseAgent :=
  { a with velocity := v.limit a.max_speed }

/-- BaseAgent::consume_energy: subtract, flooring at zero. -/
def BaseAgent.consume_energy (a : BaseAgent) (amount : ℝ) : BaseAgent :=
  { a with energy := max (a.energy - amount) 0 }

/-- BaseAgent::add_energy: unconditional increase, no upper bound. -/
def BaseAgent.add_energy (a : BaseAgent) (amount : ℝ) : BaseAgent :=
  { a with energy := a.energy + amount }

/-- BaseAgent::increment_age. -/
def BaseAgent.increment_age (a : BaseAgent) : BaseAgent := { a with age := a.age + 1 }

/-- BaseAgent::check_alive: strictly positive energy. -/
def BaseAgent.check_alive (a : BaseAgent) : Prop := 0 < a.energy

/-- Iterator::min_by over (id, position, distance) triples, comparing distances.
Rust min_by keeps the first element among equal minima, which the fold mirrors. -/
def min_by_dist : List (ℕ × Vector2 × ℝ) → Option (ℕ × Vector2 × ℝ)
  | [] => Option.none
  | e :: rest => Option.some (rest.foldl (fun best c => if c.2.2 < best.2.2 then c else best) e)

/-- Shared tail of Predator::update and Prey::update: the reproduction check,
with the two random draws passed in, falling back to update_position.
Returns the updated base state and the action. -/
def reproduction_check (b : BaseAgent) (threshold cost offspring_energy : ℝ)
    (ws : WorldState) (r1 r2 : ℝ) : BaseAgent × AgentAction :=
  if threshold ≤ b.energy then
    let angle := r1 * Real.pi * 2
    let dist := r2 * 20
    let offset := from_angle angle dist
    let spawn_pos := b.position.add offset
    let spawn_clamped : Vector2 :=
      ⟨min (max spawn_pos.x 10) (ws.width - 10), min (max spawn_pos.y 10) (ws.height - 10)⟩
    (b.consume_energy cost, AgentAction.Reproduce spawn_clamped offspring_energy)
  else
    (b.update_position ws, AgentAction.None)

/-- Predator from src/simulation/predator.rs. -/
structure Predator where
  base : BaseAgent
  params : PredatorParameters

/-- Predator::new. -/
def Predator.new (id : ℕ) (position : Vector2) (params : PredatorParameters) : Predator :=
  ⟨BaseAgent.new id AgentType.Predator position params.initial_energy params.max_speed, params⟩

/-- Predator::id. -/
def Predator.id (p : Predator) : ℕ := p.base.id

/-- Predator::position. -/
def Predator.position (p : Predator) : Vector2 := p.base.position

/-- Predator::energy. -/
def Predator.energy (p : Predator) : ℝ := p.base.energy

/-- Predator::is_alive. -/
def Predator.is_alive (p : Predator) : Prop := p.base.check_alive

/-- Predator::find_nearest_prey: minimum-distance entry of the snapshot prey list. -/
def Predator.find_nearest_prey (ws : WorldState) : Option (ℕ × Vector2 × ℝ) :=
  min_by_dist ws.nearby_prey

/-- Predator::seek: unit direction to the target scaled by max_speed. -/
def Predator.seek (p : Predator) (target : Vector2) : Vector2 :=
  let desired := target.subtract p.base.position
  let dist := desired.magnitude
  if 0 < dist then (desired.normalize).scale p.base.max_speed else Vector2.zero

/-- Predator::update: metabolic cost, age, death check, capture or chase,
then reproduction check or position update. r1 and r2 model the two rng.gen draws. -/
def Predator.update (p : Predator) (ws : WorldState) (r1 r2 : ℝ) : Predator × AgentAction :=
  let b0 := (p.base.consume_energy (p.params.energy_per_tick * ws.dt)).increment_age
  if ¬ b0.check_alive then ({ p with base := b0 }, AgentAction.None)
  else
    match Predator.find_nearest_prey ws with
    | Option.some (prey_id, prey_pos, dist) =>
      if dist ≤ p.params.capture_distance then
        ({ p with base := b0.add_energy p.params.energy_gain_from_prey },
          AgentAction.Consumed prey_id)
      else
        let b1 := b0.set_velocity (Predator.seek { p with base := b0 } prey_pos)
        let res := reproduction_check b1 p.params.reproduction_threshold
          p.params.reproduction_cost p.params.initial_energy ws r1 r2
        ({ p with base := res.1 }, res.2)
    | Option.none =>
      let b1 := b0.set_velocity (b0.velocity.scale 0.95)
      let res := reproduction_check b1 p.params.reproduction_threshold
        p.params.reproduction_cost p.params.initial_energy ws r1 r2
      ({ p with base := res.1 }, res.2)

/-- Prey from src/simulation/prey.rs. -/
structure Prey where
  base : BaseAgent
  params : PreyParameters

/-- Prey::new. -/
def Prey.new (id : ℕ) (position : Vector2) (params : PreyParameters) : Prey :=
  ⟨BaseAgent.new id AgentType.Prey position params.initial_energy params.max_speed, params⟩

/-- Prey::id. -/
def Prey.id (p : Prey) : ℕ := p.base.id

/-- Prey::position. -/
def Prey.position (p : Prey) : Vector2 := p.base.position

/-- Prey::energy. -/
def Prey.energy (p : Prey) : ℝ := p.base.energy

/-- Prey::is_alive. -/
def Prey.is_alive (p : Prey) : Prop := p.base.check_alive

/-- Prey::find_nearest_predator: minimum-distance entry of the snapshot predator list. -/
def Prey.find_nearest_predator (ws : WorldState) : Option (ℕ × Vector2 × ℝ) :=
  min_by_dist ws.nearby_predators

/-- Prey::flee: away from the threat at max_speed; on exact coincidence pick the
random direction given by the draw rf. -/
def Prey.flee (p : Prey) (threat : Vector2) (rf : ℝ) : Vector2 :=
  let away := p.base.position.subtract threat
  let dist := away.magnitude
  if 0 < dist then (away.normalize).scale p.base.max_speed
  else from_angle (rf * Real.pi * 2) p.base.max_speed

/-- Prey::update: regeneration, age, death check, flee or slow down, then
reproduction check or position update. rf, r1, r2 model the rng.gen draws. -/
def Prey.update (p : Prey) (ws : WorldState) (rf r1 r2 : ℝ) : Prey × AgentAction :=
  let b0 := (p.base.add_energy (p.params.energy_regeneration * ws.dt)).increment_age
  if ¬ b0.check_alive then ({ p with base := b0 }, AgentAction.None)
  else
    let b1 :=
      match Prey.find_nearest_predator ws with
      | Option.some (_, predator_pos, dist) =>
        if dist ≤ p.params.flee_distance then
          let flee_velocity := Prey.flee { p with base := b0 } predator_pos rf
          (b0.set_velocity flee_velocity).consume_energy
            (p.params.energy_loss_fleeing * ws.dt)
        else b0.set_velocity (b0.velocity.scale 0.9)
      | Option.none => b0.set_velocity (b0.velocity.scale 0.95)
    let res := reproduction_check b1 p.params.reproduction_threshold
      p.params.reproduction_cost p.params.initial_energy ws r1 r2
    ({ p with base := res.1 }, res.2)

/-- World from src/simulation/world.rs: the two ordered populations, the
current parameters and the id counter. Random initial placement is not
modelled; every theorem quantifies over arbitrary populations instead. -/
structure World where
  predators : List Predator
  prey : List Prey
  params : Parameters
  next_id : ℕ

/-- World::build_world_state: the two flat snapshot lists built by the double
loops over (prey, predator) and (predator, prey) pairs, filtered by the radii
taken from the current world parameters. -/
def World.build_world_state (w : World) : WorldState :=
  let world_width := w.params.world.width
  let world_height := w.params.world.height
  let nearby_predators := w.prey.flatMap (fun pr =>
    w.predators.filterMap (fun pd =>
      let dist := distance_torus pr.position pd.position world_width world_height
      if dist ≤ max w.params.predator.perception_radius w.params.prey.detection_radius
      then Option.some (pd.id, pd.position, dist) else Option.none))
  let nearby_prey := w.predators.flatMap (fun pd =>
    w.prey.filterMap (fun pr =>
      let dist := distance_torus pd.position pr.position world_width world_height
      if dist ≤ w.params.predator.perception_radius
      then Option.some (pr.id, pr.position, dist) else Option.none))
  { width := w.params.world.width
    height := w.params.world.height
    boundary_type := w.params.world.boundary_type
    nearby_predators := nearby_predators
    nearby_prey := nearby_prey
    dt := w.params.simulation.dt }

/-- The predator half of World::process_actions: collect consumed prey ids and,
when reproduction is enabled, build the new predators while threading next_id. -/
def process_predator_actions (params : Parameters) :
    List AgentAction → ℕ → List ℕ × List Predator × ℕ
  | [], nid => ([], [], nid)
  | AgentAction.Consumed target_id :: rest, nid =>
    let r := process_predator_actions params rest nid
    (target_id :: r.1, r.2.1, r.2.2)
  | AgentAction.Reproduce pos _ :: rest, nid =>
    if params.simulation.enable_reproduction then
      let r := process_predator_actions params rest (nid + 1)
      (r.1, Predator.new nid pos params.predator :: r.2.1, r.2.2)
    else
      process_predator_actions params rest nid
  | _ :: rest, nid => process_predator_actions params rest nid

/-- The prey half of World::process_actions: only Reproduce actions matter. -/
def process_prey_actions (params : Parameters) :
    List AgentAction → ℕ → List Prey × ℕ
  | [], nid => ([], nid)
  | AgentAction.Reproduce pos _ :: rest, nid =>
    if params.simulation.enable_reproduction then
      let r := process_prey_actions params rest (nid + 1)
      (Prey.new nid pos params.prey :: r.1, r.2)
    else
      process_prey_actions params rest nid
  | _ :: rest, nid => process_prey_actions params rest nid

/-- World::process_actions: commit the collected actions — remove consumed prey
by id, append the newborn agents, and advance the id counter. -/
def World.process_actions (w : World)
    (predator_actions prey_actions : List AgentAction) : World :=
  let pr := process_predator_actions w.params predator_actions w.next_id
  let consumed_prey_ids := pr.1
  let new_predators := pr.2.1
  let py := process_prey_actions w.params prey_actions pr.2.2
  { w with
    prey := (w.prey.filter (fun p => ! consumed_prey_ids.contains p.id)) ++ py.1
    predators := w.predators ++ new_predators
    next_id := py.2 }

/-- World::enforce_max_agents expressed on the two population lists:
overflow is drained from the front of the predators first, then the prey. -/
def enforce_max_agents_lists {α β : Type} (preds : List α) (py : List β)
    (max_agents : ℕ) : List α × List β :=
  let total := preds.length + py.length
  if max_agents < total then
    let to_remove := total - max_agents
    if to_remove < preds.length then (preds.drop to_remove, py)
    else
      let remove_prey := to_remove - preds.length
      if remove_prey < py.length then ([], py.drop remove_prey)
      else ([], [])
  else (preds, py)

/-- World::enforce_max_agents. -/
def World.enforce_max_agents (w : World) : World :=
  let r := enforce_max_agents_lists w.predators w.prey w.params.simulation.max_agents
  { w with predators := r.1, prey := r.2 }

/-- World::total_agents. -/
def World.total_agents (w : World) : ℕ := w.predators.length + w.prey.length

/-- World::update, one tick: build the snapshot, run every decision against it,
commit the actions, cull the dead, and enforce the population ceiling.
predator_draws and prey_draws supply the rng.gen values per list index. -/
def World.update (w : World) (predator_draws : ℕ → ℝ × ℝ)
    (prey_draws : ℕ → ℝ × ℝ × ℝ) : World :=
  let ws := w.build_world_state
  let predator_results := (w.predators.enum.map (fun ip =>
    Predator.update ip.2 ws (predator_draws ip.1).1 (predator_draws ip.1).2))
  let prey_results := (w.prey.enum.map (fun ip =>
    Prey.update ip.2 ws (prey_draws ip.1).1 (prey_draws ip.1).2.1 (prey_draws ip.1).2.2))
  let w1 := { w with
    predators := predator_results.map Prod.fst
    prey := prey_results.map Prod.fst }
  let w2 := w1.process_actions (predator_results.map Prod.snd) (prey_results.map Prod.snd)
  let w3 := { w2 with
    predators := w2.predators.filter (fun p => decide p.is_alive)
    prey := w2.prey.filter (fun p => decide p.is_alive) }
  w3.enforce_max_agents

/-- Default for PredatorParameters from src/config/parameters.rs. -/
def PredatorParameters.default : PredatorParameters :=
  ⟨100, 2, 50, 5, 0.5, 50, 150, 80, 10⟩

/-- Default for PreyParameters from src/config/parameters.rs. -/
def PreyParameters.default : PreyParameters :=
  ⟨80, 2.5, 60, 40, 0.3, 0.2, 120, 60, 50⟩

/-- Default for WorldParameters from src/config/parameters.rs. -/
def WorldParameters.default : WorldParameters :=
  ⟨800, 600, BoundaryType.Wraparound, 0.01, 20, false⟩

/-- Default for SimulationParameters from src/config/parameters.rs. -/
def SimulationParameters.default : SimulationParameters :=
  ⟨60, 1000, true, 1 / 60⟩

/-- Default for Parameters from src/config/parameters.rs. -/
def Parameters.default : Parameters :=
  ⟨PredatorParameters.default, PreyParameters.default,
    WorldParameters.default, SimulationParameters.default⟩

/-- The positions carried by the Reproduce actions of a list, in order. -/
def reproduce_positions : List AgentAction → List Vector2 :=
  List.filterMap (fun a => match a with
    | AgentAction.Reproduce pos _ => Option.some pos
    | _ => Option.none)

/-- The target ids carried by the Consumed actions of a list, in order. -/
def consumed_ids : List AgentAction → List ℕ :=
  List.filterMap (fun a => match a with
    | AgentAction.Consumed target_id => Option.some target_id
    | _ => Option.none)

/-- Modelled from the spec: the commit phase instantiates, for every Reproduce
request in order, a new predator with a freshly allocated id at the requested
position; ids are issued consecutively starting from the current counter. -/
def spawn_predators_spec (pp : PredatorParameters) : List Vector2 → ℕ → List Predator
  | [], _ => []
  | pos :: rest, nid => Predator.new nid pos pp :: spawn_predators_spec pp rest (nid + 1)

/-- Modelled from the spec: the prey analogue of spawn_predators_spec. -/
def spawn_prey_spec (yp : PreyParameters) : List Vector2 → ℕ → List Prey
  | [], _ => []
  | pos :: rest, nid => Prey.new nid pos yp :: spawn_prey_spec yp rest (nid + 1)

/-- Parameters with a small predator perception radius, for the C1 analysis. -/
def cex1_params : Parameters :=
  { Parameters.default with
    predator := { PredatorParameters.default with perception_radius := 5 } }

/-- A world with one predator far from the prey and one close to it. -/
def cex1_world : World :=
  ⟨[Predator.new 1 ⟨0, 0⟩ cex1_params.predator,
    Predator.new 2 ⟨49, 0⟩ cex1_params.predator],
   [Prey.new 3 ⟨50, 0⟩ cex1_params.prey],
   cex1_params, 4⟩

/-- An empty world with default parameters (reproduction enabled). -/
def cex3_world : World := ⟨[], [], Parameters.default, 1⟩

/-- Gate-accepted parameters with a negative prey energy regeneration. -/
def cex5_params : Parameters :=
  { Parameters.default with
    prey := { PreyParameters.default with energy_regeneration := -5, initial_energy := 3 },
    simulation := { SimulationParameters.default with dt := 1 } }

/-- An empty perception snapshot with unit time step. -/
def cex5_ws : WorldState := ⟨800, 600, BoundaryType.Wraparound, [], [], 1⟩

/-- A snapshot whose prey list holds a single entry at distance 2. -/
def wit2_ws : WorldState :=
  ⟨100, 100, BoundaryType.Wraparound, [], [(7, ⟨1, 0⟩, 2)], 1⟩

/-- A default predator at the origin. -/
def wit2_pred : Predator := Predator.new 1 ⟨0, 0⟩ PredatorParameters.default

/-- A world holding the single prey seen in wit2_ws. -/
def wit10_world : World :=
  ⟨[], [Prey.new 7 ⟨1, 0⟩ PreyParameters.default], Parameters.default, 8⟩

/-- The magnitude of any vector is nonnegative. -/
theorem Vector2.magnitude_nonneg (v : Vector2) : 0 ≤ v.magnitude :=
  Real.sqrt_nonneg _

/-- The zero vector has magnitude zero. -/
theorem Vector2.magnitude_zero : Vector2.zero.magnitude = 0 := by
  simp [Vector2.magnitude, Vector2.zero]

/-- Scaling multiplies the magnitude by the absolute value of the factor. -/
theorem Vector2.magnitude_scale (v : Vector2) (s : ℝ) :
    (v.scale s).magnitude = |s| * v.magnitude := by
  simp only [Vector2.magnitude, Vector2.scale]
  rw [show v.x * s * (v.x * s) + v.y * s * (v.y * s)
      = s ^ 2 * (v.x * v.x + v.y * v.y) by ring]
  rw [Real.sqrt_mul (sq_nonneg s), Real.sqrt_sq_eq_abs]

/-- A vector with a nonzero component has positive magnitude. -/
theorem Vector2.magnitude_pos (v : Vector2) (h : v.x ≠ 0 ∨ v.y ≠ 0) :
    0 < v.magnitude := by
  apply Real.sqrt_pos.mpr
  rcases h with hx | hy
  · exact add_pos_of_pos_of_nonneg (mul_self_pos.mpr hx) (mul_self_nonneg _)
  · exact add_pos_of_nonneg_of_pos (mul_self_nonneg _) (mul_self_pos.mpr hy)

/-- Normalizing a vector of positive magnitude yields a unit vector. -/
theorem Vector2.magnitude_normalize (v : Vector2) (h : 0 < v.magnitude) :
    v.normalize.magnitude = 1 := by
  have hA : 0 < v.x * v.x + v.y * v.y := Real.sqrt_pos.mp h
  have h2 : v.magnitude * v.magnitude = v.x * v.x + v.y * v.y :=
    Real.mul_self_sqrt hA.le
  have hne : v.magnitude ≠ 0 := ne_of_gt h
  have hn : v.normalize = ⟨v.x / v.magnitude, v.y / v.magnitude⟩ := by
    unfold Vector2.normalize
    rw [if_pos h]
  rw [hn]
  show Real.sqrt (v.x / v.magnitude * (v.x / v.magnitude)
    + v.y / v.magnitude * (v.y / v.magnitude)) = 1
  rw [show v.x / v.magnitude * (v.x / v.magnitude) + v.y / v.magnitude * (v.y / v.magnitude)
      = (v.x * v.x + v.y * v.y) / (v.magnitude * v.magnitude) by field_simp]
  rw [h2, div_self (ne_of_gt hA)]
  exact Real.sqrt_one

/-- The magnitude of from_angle is the absolute value of the requested magnitude. -/
theorem from_angle_magnitude (angle m : ℝ) : (from_angle angle m).magnitude = |m| := by
  simp only [from_angle, Vector2.magnitude]
  rw [show Real.cos angle * m * (Real.cos angle * m) + Real.sin angle * m * (Real.sin angle * m)
      = (Real.cos angle ^ 2 + Real.sin angle ^ 2) * m ^ 2 by ring]
  rw [Real.cos_sq_add_sin_sq, one_mul, Real.sqrt_sq_eq_abs]

/-- limit never returns a vector longer than a nonnegative bound. -/
theorem Vector2.magnitude_limit_le (v : Vector2) (bound : ℝ) (hb : 0 ≤ bound) :
    (v.limit bound).magnitude ≤ bound := by
  unfold Vector2.limit
  split_ifs with h
  · rw [Vector2.magnitude_scale,
      Vector2.magnitude_normalize v (lt_of_le_of_lt hb h), mul_one, abs_of_nonneg hb]
  · exact le_of_not_lt h

/-- C6: for every velocity passed to set_velocity the stored velocity has
magnitude at most the agent max_speed, because limit truncates rather than
rejects; in particular limit itself enforces the bound for any nonnegative
bound. -/
theorem C6_set_velocity_bounds_speed (v : Vector2) (bound : ℝ) (a : BaseAgent)
    (hb : 0 ≤ bound) (ha : 0 ≤ a.max_speed) :
    (v.limit bound).magnitude ≤ bound ∧
    ((a.set_velocity v).velocity).magnitude ≤ a.max_speed := by
  refine ⟨Vector2.magnitude_limit_le v bound hb, ?_⟩
  simp only [BaseAgent.set_velocity]
  exact Vector2.magnitude_limit_le v a.max_speed ha

/-- Witness for C6 at a concrete vector and agent. -/
theorem C6_witness :
    (0 : ℝ) ≤ 2 ∧
    ((Vector2.mk 3 4).limit 2).magnitude ≤ 2 ∧
    (((BaseAgent.new 1 AgentType.Predator ⟨0, 0⟩ 10 2).set_velocity ⟨3, 4⟩).velocity).magnitude
      ≤ (BaseAgent.new 1 AgentType.Predator ⟨0, 0⟩ 10 2).max_speed :=
  ⟨by norm_num,
    (C6_set_velocity_bounds_speed ⟨3, 4⟩ 2 (BaseAgent.new 1 AgentType.Predator ⟨0, 0⟩ 10 2)
      (by norm_num) (by norm_num [BaseAgent.new])).1,
    (C6_set_velocity_bounds_speed ⟨3, 4⟩ 2 (BaseAgent.new 1 AgentType.Predator ⟨0, 0⟩ 10 2)
      (by norm_num) (by norm_num [BaseAgent.new])).2⟩

/-- C8: distance_torus takes the per-axis wrapped delta min of the direct and
complementary spans, returns the Euclidean length of the wrapped deltas, and
on the documented example yields 20 rather than 80. -/
theorem C8_distance_torus_wrapped :
    (∀ (p1 p2 : Vector2) (width height : ℝ),
      distance_torus p1 p2 width height =
        Real.sqrt ((min |p1.x - p2.x| (width - |p1.x - p2.x|)) ^ 2 +
          (min |p1.y - p2.y| (height - |p1.y - p2.y|)) ^ 2)) ∧
    distance_torus ⟨10, 50⟩ ⟨90, 50⟩ 100 100 = 20 ∧
    distance_torus ⟨10, 50⟩ ⟨90, 50⟩ 100 100 ≠ 80 := by
  have hgen : ∀ (p1 p2 : Vector2) (width height : ℝ),
      distance_torus p1 p2 width height =
        Real.sqrt ((min |p1.x - p2.x| (width - |p1.x - p2.x|)) ^ 2 +
          (min |p1.y - p2.y| (height - |p1.y - p2.y|)) ^ 2) := by
    intro p1 p2 width height
    simp only [distance_torus]
    congr 1
    ring
  have hconc : distance_torus ⟨10, 50⟩ ⟨90, 50⟩ 100 100 = 20 := by
    rw [hgen]
    norm_num
    rw [show (400 : ℝ) = 20 ^ 2 by norm_num, Real.sqrt_sq (by norm_num : (0 : ℝ) ≤ 20)]
  exact ⟨hgen, hconc, by rw [hconc]; norm_num⟩

/-- C7: validation succeeds exactly when the four constraints all hold, and
otherwise reports the first violated constraint in source order. -/
theorem C7_validate_first_violation (p : Parameters) :
    (p.validate = Except.ok () ↔
      (0 < p.world.width ∧ 0 < p.world.height ∧
        0 < p.predator.max_speed ∧ 0 < p.prey.max_speed ∧
        0 < p.predator.initial_energy ∧ 0 < p.prey.initial_energy ∧
        0 < p.simulation.tick_rate)) ∧
    ((p.world.width ≤ 0 ∨ p.world.height ≤ 0) →
      p.validate = Except.error "World dimensions must be positive") ∧
    (0 < p.world.width → 0 < p.world.height →
      (p.predator.max_speed ≤ 0 ∨ p.prey.max_speed ≤ 0) →
      p.validate = Except.error "Agent speeds must be positive") ∧
    (0 < p.world.width → 0 < p.world.height →
      0 < p.predator.max_speed → 0 < p.prey.max_speed →
      (p.predator.initial_energy ≤ 0 ∨ p.prey.initial_energy ≤ 0) →
      p.validate = Except.error "Initial energy must be positive") ∧
    (0 < p.world.width → 0 < p.world.height →
      0 < p.predator.max_speed → 0 < p.prey.max_speed →
      0 < p.predator.initial_energy → 0 < p.prey.initial_energy →
      p.simulation.tick_rate ≤ 0 →
      p.validate = Except.error "Tick rate must be positive") := by
  unfold Parameters.validate
  constructor
  · constructor
    · intro hok
      split_ifs at hok with h1 h2 h3 h4
      push_neg at h1 h2 h3
      exact ⟨h1.1, h1.2, h2.1, h2.2, h3.1, h3.2, not_le.mp h4⟩
    · intro hc
      rw [if_neg (by push_neg; exact ⟨hc.1, hc.2.1⟩),
        if_neg (by push_neg; exact ⟨hc.2.2.1, hc.2.2.2.1⟩),
        if_neg (by push_neg; exact ⟨hc.2.2.2.2.1, hc.2.2.2.2.2.1⟩),
        if_neg (not_le.mpr hc.2.2.2.2.2.2)]
  · refine ⟨fun h => by rw [if_pos h], fun hw hh hs => ?_, fun hw hh hps hys he => ?_,
      fun hw hh hps hys hpe hye ht => ?_⟩
    · rw [if_neg (by push_neg; exact ⟨hw, hh⟩), if_pos hs]
    · rw [if_neg (by push_neg; exact ⟨hw, hh⟩), if_neg (by push_neg; exact ⟨hps, hys⟩),
        if_pos he]
    · rw [if_neg (by push_neg; exact ⟨hw, hh⟩), if_neg (by push_neg; exact ⟨hps, hys⟩),
        if_neg (by push_neg; exact ⟨hpe, hye⟩), if_pos ht]

/-- Witness for C7: a negative width is reported as the first violation, and
the default parameters validate successfully. -/
theorem C7_witness :
    ((({ Parameters.default with
        world := { WorldParameters.default with width := -1 } } : Parameters).world.width ≤ 0 ∨
      ({ Parameters.default with
        world := { WorldParameters.default with width := -1 } } : Parameters).world.height ≤ 0) ∧
      ({ Parameters.default with
        world := { WorldParameters.default with width := -1 } } : Parameters).validate =
        Except.error "World dimensions must be positive") ∧
    Parameters.default.validate = Except.ok () := by
  have hbad : (({ Parameters.default with
      world := { WorldParameters.default with width := -1 } } : Parameters).world.width ≤ 0 ∨
    ({ Parameters.default with
      world := { WorldParameters.default with width := -1 } } : Parameters).world.height ≤ 0) := by
    left
    norm_num [WorldParameters.default]
  refine ⟨⟨hbad, (C7_validate_first_violation _).2.1 hbad⟩, ?_⟩
  exact (C7_validate_first_violation Parameters.default).1.mpr
    (by norm_num [Parameters.default, PredatorParameters.default, PreyParameters.default,
      WorldParameters.default, SimulationParameters.default])

/-- C9: a prey fleeing a threat at exactly its own position gets a velocity of
magnitude max_speed for every random draw, hence nonzero; for a distinct
threat the velocity is a positive multiple of the away direction at magnitude
max_speed. -/
theorem C9_flee_nondegenerate (p : Prey) (threat : Vector2) (rf : ℝ)
    (h : 0 < p.base.max_speed) :
    (p.base.position = threat →
      ((p.flee threat rf).magnitude = p.base.max_speed ∧ p.flee threat rf ≠ Vector2.zero)) ∧
    (p.base.position ≠ threat →
      ∃ c, 0 < c ∧ p.flee threat rf = (p.base.position.subtract threat).scale c ∧
        (p.flee threat rf).magnitude = p.base.max_speed) := by
  constructor
  · intro heq
    have hmag : (p.base.position.subtract threat).magnitude = 0 := by
      rw [heq]
      simp [Vector2.subtract, Vector2.magnitude]
    have hflee : p.flee threat rf = from_angle (rf * Real.pi * 2) p.base.max_speed := by
      simp only [Prey.flee]
      rw [hmag, if_neg (lt_irrefl 0)]
    refine ⟨?_, ?_⟩
    · rw [hflee, from_angle_magnitude, abs_of_pos h]
    · rw [hflee]
      intro hz
      have hm := congrArg Vector2.magnitude hz
      rw [from_angle_magnitude, abs_of_pos h, Vector2.magnitude_zero] at hm
      exact absurd hm (ne_of_gt h)
  · intro hne
    have hax : (p.base.position.subtract threat).x ≠ 0 ∨
        (p.base.position.subtract threat).y ≠ 0 := by
      by_contra hcon
      push_neg at hcon
      apply hne
      have h1 : p.base.position.x = threat.x := by
        have hx := hcon.1
        simp only [Vector2.subtract] at hx
        linarith
      have h2 : p.base.position.y = threat.y := by
        have hy := hcon.2
        simp only [Vector2.subtract] at hy
        linarith
      calc p.base.position = ⟨p.base.position.x, p.base.position.y⟩ := rfl
        _ = threat := by rw [h1, h2]
    have hpos : 0 < (p.base.position.subtract threat).magnitude :=
      Vector2.magnitude_pos _ hax
    have hflee : p.flee threat rf =
        ((p.base.position.subtract threat).normalize).scale p.base.max_speed := by
      simp only [Prey.flee]
      rw [if_pos hpos]
    refine ⟨p.base.max_speed / (p.base.position.subtract threat).magnitude,
      div_pos h hpos, ?_, ?_⟩
    · rw [hflee]
      have hnorm : (p.base.position.subtract threat).normalize =
          ⟨(p.base.position.subtract threat).x / (p.base.position.subtract threat).magnitude,
            (p.base.position.subtract threat).y / (p.base.position.subtract threat).magnitude⟩ := by
        unfold Vector2.normalize
        rw [if_pos hpos]
      rw [hnorm]
      simp only [Vector2.scale]
      congr 1 <;> ring
    · rw [hflee, Vector2.magnitude_scale, Vector2.magnitude_normalize _ hpos,
        mul_one, abs_of_pos h]

/-- Witness for C9: a concrete prey coincident with the threat. -/
theorem C9_witness :
    (0 : ℝ) < (Prey.new 1 ⟨5, 5⟩ PreyParameters.default).base.max_speed ∧
    ((Prey.new 1 ⟨5, 5⟩ PreyParameters.default).flee ⟨5, 5⟩ 0).magnitude
      = (Prey.new 1 ⟨5, 5⟩ PreyParameters.default).base.max_speed ∧
    (Prey.new 1 ⟨5, 5⟩ PreyParameters.default).flee ⟨5, 5⟩ 0 ≠ Vector2.zero := by
  have hms : (0 : ℝ) < (Prey.new 1 ⟨5, 5⟩ PreyParameters.default).base.max_speed := by
    norm_num [Prey.new, BaseAgent.new, PreyParameters.default]
  have hr := (C9_flee_nondegenerate (Prey.new 1 ⟨5, 5⟩ PreyParameters.default) ⟨5, 5⟩ 0 hms).1 rfl
  exact ⟨hms, hr.1, hr.2⟩

/-- set_velocity leaves the energy unchanged. -/
theorem BaseAgent.energy_set_velocity (a : BaseAgent) (v : Vector2) :
    (a.set_velocity v).energy = a.energy := rfl

/-- consume_energy yields the floored difference. -/
theorem BaseAgent.energy_consume_energy (a : BaseAgent) (amount : ℝ) :
    (a.consume_energy amount).energy = max (a.energy - amount) 0 := rfl

/-- add_energy adds unconditionally. -/
theorem BaseAgent.energy_add_energy (a : BaseAgent) (amount : ℝ) :
    (a.add_energy amount).energy = a.energy + amount := rfl

/-- increment_age leaves the energy unchanged. -/
theorem BaseAgent.energy_increment_age (a : BaseAgent) :
    a.increment_age.energy = a.energy := rfl

/-- update_position leaves the energy unchanged. -/
theorem BaseAgent.energy_update_position (a : BaseAgent) (ws : WorldState) :
    (a.update_position ws).energy = a.energy := rfl

/-- The reproduction check never drives a nonnegative energy negative:
it either pays the cost through the flooring consume_energy or only moves. -/
theorem reproduction_check_energy_nonneg (b : BaseAgent) (threshold cost oe : ℝ)
    (ws : WorldState) (r1 r2 : ℝ) (hb : 0 ≤ b.energy) :
    0 ≤ (reproduction_check b threshold cost oe ws r1 r2).1.energy := by
  unfold reproduction_check
  split_ifs
  · rw [BaseAgent.energy_consume_energy]
    exact le_max_right _ 0
  · rw [BaseAgent.energy_update_position]
    exact hb

/-- C5 amended: consume_energy floors at zero unconditionally, and one tick of
either species preserves nonnegative energy provided the gains the gate does
not check (capture gain, regeneration times dt) are nonnegative; the gate
itself accepts negative values for those, see the counterexample. -/
theorem C5_energy_nonneg_amended (a : BaseAgent) (amount : ℝ)
    (p : Predator) (pr : Prey) (ws : WorldState) (rf r1 r2 : ℝ)
    (hgain : 0 ≤ p.params.energy_gain_from_prey)
    (hregen : 0 ≤ pr.params.energy_regeneration * ws.dt)
    (hpr : 0 ≤ pr.base.energy) :
    0 ≤ (a.consume_energy amount).energy ∧
    0 ≤ (p.update ws r1 r2).1.base.energy ∧
    0 ≤ (pr.update ws rf r1 r2).1.base.energy := by
  refine ⟨?_, ?_, ?_⟩
  · rw [BaseAgent.energy_consume_energy]
    exact le_max_right _ 0
  · simp only [Predator.update]
    split
    · rw [BaseAgent.energy_increment_age, BaseAgent.energy_consume_energy]
      exact le_max_right _ 0
    · split
      · split_ifs
        · rw [BaseAgent.energy_add_energy, BaseAgent.energy_increment_age,
            BaseAgent.energy_consume_energy]
          exact add_nonneg (le_max_right _ 0) hgain
        · apply reproduction_check_energy_nonneg
          rw [BaseAgent.energy_set_velocity, BaseAgent.energy_increment_age,
            BaseAgent.energy_consume_energy]
          exact le_max_right _ 0
      · apply reproduction_check_energy_nonneg
        rw [BaseAgent.energy_set_velocity, BaseAgent.energy_increment_age,
          BaseAgent.energy_consume_energy]
        exact le_max_right _ 0
  · have hb0 : 0 ≤ ((pr.base.add_energy
        (pr.params.energy_regeneration * ws.dt)).increment_age).energy := by
      rw [BaseAgent.energy_increment_age, BaseAgent.energy_add_energy]
      exact add_nonneg hpr hregen
    simp only [Prey.update]
    split
    · exact hb0
    · apply reproduction_check_energy_nonneg
      split
      · split_ifs
        · rw [BaseAgent.energy_consume_energy]
          exact le_max_right _ 0
        · rw [BaseAgent.energy_set_velocity]
          exact hb0
      · rw [BaseAgent.energy_set_velocity]
        exact hb0

/-- Counterexample for C5: the validation gate accepts a negative prey energy
regeneration, and one prey tick then drives the energy strictly negative. -/
theorem C5_counterexample :
    cex5_params.validate = Except.ok () ∧
    ((Prey.new 1 ⟨5, 5⟩ cex5_params.prey).update cex5_ws 0 0 0).1.base.energy < 0 := by
  constructor
  · unfold Parameters.validate
    rw [if_neg, if_neg, if_neg, if_neg]
    · norm_num [cex5_params, Parameters.default, SimulationParameters.default]
    · norm_num [cex5_params, Parameters.default, PredatorParameters.default,
        PreyParameters.default]
    · norm_num [cex5_params, Parameters.default, PredatorParameters.default,
        PreyParameters.default]
    · norm_num [cex5_params, Parameters.default, WorldParameters.default]
  · simp only [Prey.update, Prey.new, BaseAgent.new, BaseAgent.add_energy,
      BaseAgent.increment_age, BaseAgent.check_alive, cex5_params, cex5_ws,
      Parameters.default, PreyParameters.default, SimulationParameters.default]
    norm_num

/-- Witness for C5 at default parameters and a unit-dt snapshot. -/
theorem C5_witness :
    ((0 : ℝ) ≤ (Predator.new 1 ⟨0, 0⟩ PredatorParameters.default).params.energy_gain_from_prey ∧
      (0 : ℝ) ≤ (Prey.new 2 ⟨1, 1⟩ PreyParameters.default).params.energy_regeneration *
        cex5_ws.dt ∧
      (0 : ℝ) ≤ (Prey.new 2 ⟨1, 1⟩ PreyParameters.default).base.energy) ∧
    (0 ≤ ((Predator.new 1 ⟨0, 0⟩ PredatorParameters.default).base.consume_energy 7).energy ∧
      0 ≤ ((Predator.new 1 ⟨0, 0⟩ PredatorParameters.default).update cex5_ws 0 0).1.base.energy ∧
      0 ≤ ((Prey.new 2 ⟨1, 1⟩ PreyParameters.default).update cex5_ws 0 0 0).1.base.energy) := by
  have h1 : (0 : ℝ) ≤
      (Predator.new 1 ⟨0, 0⟩ PredatorParameters.default).params.energy_gain_from_prey := by
    norm_num [Predator.new, PredatorParameters.default]
  have h2 : (0 : ℝ) ≤ (Prey.new 2 ⟨1, 1⟩ PreyParameters.default).params.energy_regeneration *
      cex5_ws.dt := by
    norm_num [Prey.new, PreyParameters.default, cex5_ws]
  have h3 : (0 : ℝ) ≤ (Prey.new 2 ⟨1, 1⟩ PreyParameters.default).base.energy := by
    norm_num [Prey.new, BaseAgent.new, PreyParameters.default]
  have hr := C5_energy_nonneg_amended
    (Predator.new 1 ⟨0, 0⟩ PredatorParameters.default).base 7
    (Predator.new 1 ⟨0, 0⟩ PredatorParameters.default)
    (Prey.new 2 ⟨1, 1⟩ PreyParameters.default) cex5_ws 0 0 0 h1 h2 h3
  exact ⟨⟨h1, h2, h3⟩, hr⟩

/-- The min_by fold returns an element of the candidate list. -/
theorem min_by_fold_mem (xs : List (ℕ × Vector2 × ℝ)) : ∀ x : ℕ × Vector2 × ℝ,
    xs.foldl (fun best c => if c.2.2 < best.2.2 then c else best) x ∈ x :: xs := by
  induction xs with
  | nil => intro x; simp
  | cons c cs ih =>
    intro x
    simp only [List.foldl_cons]
    rcases List.mem_cons.mp (ih (if c.2.2 < x.2.2 then c else x)) with h | h
    · rw [h]
      split_ifs
      · exact List.mem_cons_of_mem _ (List.mem_cons_self _ _)
      · exact List.mem_cons_self _ _
    · exact List.mem_cons_of_mem _ (List.mem_cons_of_mem _ h)

/-- The min_by fold result is a lower bound on the candidate distances. -/
theorem min_by_fold_le (xs : List (ℕ × Vector2 × ℝ)) : ∀ x e, e ∈ x :: xs →
    (xs.foldl (fun best c => if c.2.2 < best.2.2 then c else best) x).2.2 ≤ e.2.2 := by
  induction xs with
  | nil =>
    intro x e he
    rcases List.mem_singleton.mp he with rfl
    exact le_refl _
  | cons c cs ih =>
    intro x e he
    simp only [List.foldl_cons]
    have hstep : (if c.2.2 < x.2.2 then c else x).2.2 ≤ x.2.2 ∧
        (if c.2.2 < x.2.2 then c else x).2.2 ≤ c.2.2 := by
      split_ifs with hc
      · exact ⟨le_of_lt hc, le_refl _⟩
      · exact ⟨le_refl _, le_of_not_lt hc⟩
    rcases List.mem_cons.mp he with rfl | he2
    · exact le_trans (ih _ _ (List.mem_cons_self _ _)) hstep.1
    · rcases List.mem_cons.mp he2 with rfl | he3
      · exact le_trans (ih _ _ (List.mem_cons_self _ _)) hstep.2
      · exact ih _ _ (List.mem_cons_of_mem _ he3)

/-- min_by_dist returns a member of the list realizing its minimum distance. -/
theorem min_by_dist_spec (l : List (ℕ × Vector2 × ℝ)) (e : ℕ × Vector2 × ℝ)
    (h : min_by_dist l = Option.some e) : e ∈ l ∧ ∀ d ∈ l, e.2.2 ≤ d.2.2 := by
  cases l with
  | nil => exact Option.noConfusion h
  | cons x xs =>
    have he : e = xs.foldl (fun best c => if c.2.2 < best.2.2 then c else best) x := by
      have := h
      unfold min_by_dist at this
      exact (Option.some.injEq _ _ ▸ this).symm
    subst he
    exact ⟨min_by_fold_mem xs x, fun d hd => min_by_fold_le xs x d hd⟩

/-- A predator alive after its metabolic cost whose nearest snapshot entry is
within capture distance takes exactly the capture branch. -/
theorem predator_update_capture (p : Predator) (ws : WorldState) (r1 r2 : ℝ)
    (prey_id : ℕ) (prey_pos : Vector2) (d : ℝ)
    (halive : p.params.energy_per_tick * ws.dt < p.base.energy)
    (hfind : Predator.find_nearest_prey ws = Option.some (prey_id, prey_pos, d))
    (hcap : d ≤ p.params.capture_distance) :
    (p.update ws r1 r2).2 = AgentAction.Consumed prey_id ∧
    (p.update ws r1 r2).1.base =
      ((p.base.consume_energy (p.params.energy_per_tick * ws.dt)).increment_age).add_energy
        p.params.energy_gain_from_prey ∧
    (p.update ws r1 r2).1.params = p.params := by
  have halive2 : ((p.base.consume_energy
      (p.params.energy_per_tick * ws.dt)).increment_age).check_alive := by
    simp only [BaseAgent.check_alive, BaseAgent.energy_increment_age,
      BaseAgent.energy_consume_energy]
    rw [max_eq_left (by linarith)]
    linarith
  simp only [Predator.update, hfind]
  rw [if_neg (not_not_intro halive2), if_pos hcap]
  exact ⟨rfl, rfl, rfl⟩

/-- C2: for a predator alive after paying its metabolic cost whose snapshot
prey list has its minimum-distance entry within capture distance, the tick
returns Consumed for exactly that entry, energy changes by the capture gain
minus the metabolic cost, position and velocity are untouched, and the entry
really is a minimum of the snapshot list. -/
theorem C2_capture_consumes (p : Predator) (ws : WorldState) (r1 r2 : ℝ)
    (prey_id : ℕ) (prey_pos : Vector2) (d : ℝ)
    (halive : p.params.energy_per_tick * ws.dt < p.base.energy)
    (hfind : Predator.find_nearest_prey ws = Option.some (prey_id, prey_pos, d))
    (hcap : d ≤ p.params.capture_distance) :
    (p.update ws r1 r2).2 = AgentAction.Consumed prey_id ∧
    (p.update ws r1 r2).1.base.energy =
      p.base.energy - p.params.energy_per_tick * ws.dt + p.params.energy_gain_from_prey ∧
    (p.update ws r1 r2).1.base.position = p.base.position ∧
    (p.update ws r1 r2).1.base.velocity = p.base.velocity ∧
    (p.update ws r1 r2).1.base.age = p.base.age + 1 ∧
    (prey_id, prey_pos, d) ∈ ws.nearby_prey ∧
    ∀ e ∈ ws.nearby_prey, d ≤ e.2.2 := by
  have hupd := predator_update_capture p ws r1 r2 prey_id prey_pos d halive hfind hcap
  have hspec := min_by_dist_spec ws.nearby_prey (prey_id, prey_pos, d) hfind
  refine ⟨hupd.1, ?_, ?_, ?_, ?_, hspec.1, hspec.2⟩
  · rw [hupd.2.1, BaseAgent.energy_add_energy, BaseAgent.energy_increment_age,
      BaseAgent.energy_consume_energy, max_eq_left (by linarith)]
  · rw [hupd.2.1]
    rfl
  · rw [hupd.2.1]
    rfl
  · rw [hupd.2.1]
    rfl

/-- Witness for C2: a default predator and a one-entry snapshot at distance 2. -/
theorem C2_witness :
    (wit2_pred.params.energy_per_tick * wit2_ws.dt < wit2_pred.base.energy ∧
      Predator.find_nearest_prey wit2_ws = Option.some (7, ⟨1, 0⟩, 2) ∧
      (2 : ℝ) ≤ wit2_pred.params.capture_distance) ∧
    (wit2_pred.update wit2_ws 0 0).2 = AgentAction.Consumed 7 ∧
    (wit2_pred.update wit2_ws 0 0).1.base.energy =
      wit2_pred.base.energy - wit2_pred.params.energy_per_tick * wit2_ws.dt +
        wit2_pred.params.energy_gain_from_prey := by
  have h1 : wit2_pred.params.energy_per_tick * wit2_ws.dt < wit2_pred.base.energy := by
    norm_num [wit2_pred, wit2_ws, Predator.new, BaseAgent.new, PredatorParameters.default]
  have h2 : Predator.find_nearest_prey wit2_ws = Option.some (7, ⟨1, 0⟩, 2) := rfl
  have h3 : (2 : ℝ) ≤ wit2_pred.params.capture_distance := by
    norm_num [wit2_pred, Predator.new, PredatorParameters.default]
  have hr := C2_capture_consumes wit2_pred wit2_ws 0 0 7 ⟨1, 0⟩ 2 h1 h2 h3
  exact ⟨⟨h1, h2, h3⟩, hr.1, hr.2.1⟩

/-- Toroidal distance between the far predator and the prey of cex1_world. -/
theorem cex1_dist_far : distance_torus ⟨0, 0⟩ ⟨50, 0⟩ 800 600 = 50 := by
  simp only [distance_torus]
  norm_num
  rw [show (2500 : ℝ) = 50 ^ 2 by norm_num, Real.sqrt_sq (by norm_num : (0 : ℝ) ≤ 50)]

/-- Toroidal distance between the near predator and the prey of cex1_world. -/
theorem cex1_dist_near : distance_torus ⟨49, 0⟩ ⟨50, 0⟩ 800 600 = 1 := by
  simp only [distance_torus]
  norm_num

/-- The snapshot prey list of cex1_world holds the single near-pair entry. -/
theorem cex1_nearby_prey :
    cex1_world.build_world_state.nearby_prey = [(3, ⟨50, 0⟩, 1)] := by
  simp only [World.build_world_state, cex1_world, cex1_params, Parameters.default,
    PredatorParameters.default, PreyParameters.default, WorldParameters.default,
    SimulationParameters.default, Predator.new, Prey.new, BaseAgent.new,
    Predator.position, Predator.id, Prey.position, Prey.id,
    cex1_dist_far, cex1_dist_near,
    List.flatMap_cons, List.flatMap_nil, List.filterMap_cons, List.filterMap_nil]
  norm_num

/-- Counterexample for C1: in cex1_world the snapshot prey list consumed by
every predator contains an entry whose prey is far outside the perception
radius of the first predator, so the lists are not per-agent filtered. -/
theorem C1_counterexample :
    ¬ (∀ pd ∈ cex1_world.predators, ∀ e ∈ cex1_world.build_world_state.nearby_prey,
        distance_torus pd.position e.2.1 cex1_world.params.world.width
          cex1_world.params.world.height ≤ pd.params.perception_radius) := by
  intro hall
  have h1 := hall (Predator.new 1 ⟨0, 0⟩ cex1_params.predator)
    (by simp [cex1_world]) (3, ⟨50, 0⟩, 1) (by rw [cex1_nearby_prey]; simp)
  norm_num [Predator.new, BaseAgent.new, Predator.position, cex1_world, cex1_params,
    Parameters.default, PredatorParameters.default, WorldParameters.default,
    cex1_dist_far] at h1

/-- C1 corrected: the snapshot holds one shared nearby-prey list and one shared
nearby-predator list; membership is characterized over all (predator, prey)
pairs using the radii of the current world parameters, each entry recording
the distance of its own generating pair. -/
theorem C1_snapshot_global_lists (w : World) (e : ℕ × Vector2 × ℝ) :
    (e ∈ w.build_world_state.nearby_prey ↔
      ∃ pd ∈ w.predators, ∃ pr ∈ w.prey,
        e = (pr.id, pr.position,
          distance_torus pd.position pr.position w.params.world.width w.params.world.height) ∧
        distance_torus pd.position pr.position w.params.world.width w.params.world.height
          ≤ w.params.predator.perception_radius) ∧
    (e ∈ w.build_world_state.nearby_predators ↔
      ∃ pr ∈ w.prey, ∃ pd ∈ w.predators,
        e = (pd.id, pd.position,
          distance_torus pr.position pd.position w.params.world.width w.params.world.height) ∧
        distance_torus pr.position pd.position w.params.world.width w.params.world.height
          ≤ max w.params.predator.perception_radius w.params.prey.detection_radius) := by
  constructor
  · constructor
    · intro he
      simp only [World.build_world_state, List.mem_flatMap, List.mem_filterMap] at he
      obtain ⟨pd, hpd, pr, hpr, hif⟩ := he
      by_cases hd : distance_torus pd.position pr.position w.params.world.width
          w.params.world.height ≤ w.params.predator.perception_radius
      · rw [if_pos hd] at hif
        exact ⟨pd, hpd, pr, hpr, (Option.some.inj hif).symm, hd⟩
      · rw [if_neg hd] at hif
        exact Option.noConfusion hif
    · rintro ⟨pd, hpd, pr, hpr, he, hd⟩
      simp only [World.build_world_state, List.mem_flatMap, List.mem_filterMap]
      exact ⟨pd, hpd, pr, hpr, by rw [if_pos hd, he]⟩
  · constructor
    · intro he
      simp only [World.build_world_state, List.mem_flatMap, List.mem_filterMap] at he
      obtain ⟨pr, hpr, pd, hpd, hif⟩ := he
      by_cases hd : distance_torus pr.position pd.position w.params.world.width
          w.params.world.height
          ≤ max w.params.predator.perception_radius w.params.prey.detection_radius
      · rw [if_pos hd] at hif
        exact ⟨pr, hpr, pd, hpd, (Option.some.inj hif).symm, hd⟩
      · rw [if_neg hd] at hif
        exact Option.noConfusion hif
    · rintro ⟨pr, hpr, pd, hpd, he, hd⟩
      simp only [World.build_world_state, List.mem_flatMap, List.mem_filterMap]
      exact ⟨pr, hpr, pd, hpd, by rw [if_pos hd, he]⟩

/-- process_predator_actions equals its specification: the consumed ids in
order, consecutive fresh ids for the Reproduce requests, and the advanced
counter. -/
theorem process_predator_actions_spec (params : Parameters)
    (hrep : params.simulation.enable_reproduction = true) :
    ∀ (acts : List AgentAction) (nid : ℕ),
    process_predator_actions params acts nid =
      (consumed_ids acts,
        spawn_predators_spec params.predator (reproduce_positions acts) nid,
        nid + (reproduce_positions acts).length) := by
  intro acts
  induction acts with
  | nil =>
    intro nid
    simp [process_predator_actions, consumed_ids, reproduce_positions, spawn_predators_spec]
  | cons a rest ih =>
    intro nid
    cases a with
    | None =>
      simp [process_predator_actions, consumed_ids, reproduce_positions, ih]
    | Move pos vel =>
      simp [process_predator_actions, consumed_ids, reproduce_positions, ih]
    | Consumed t =>
      simp [process_predator_actions, consumed_ids, reproduce_positions, ih]
    | Reproduce pos e =>
      simp [process_predator_actions, consumed_ids, reproduce_positions,
        spawn_predators_spec, hrep, ih]
      omega

/-- process_prey_actions equals its specification. -/
theorem process_prey_actions_spec (params : Parameters)
    (hrep : params.simulation.enable_reproduction = true) :
    ∀ (acts : List AgentAction) (nid : ℕ),
    process_prey_actions params acts nid =
      (spawn_prey_spec params.prey (reproduce_positions acts) nid,
        nid + (reproduce_positions acts).length) := by
  intro acts
  induction acts with
  | nil =>
    intro nid
    simp [process_prey_actions, reproduce_positions, spawn_prey_spec]
  | cons a rest ih =>
    intro nid
    cases a with
    | None =>
      simp [process_prey_actions, reproduce_positions, ih]
    | Move pos vel =>
      simp [process_prey_actions, reproduce_positions, ih]
    | Consumed t =>
      simp [process_prey_actions, reproduce_positions, ih]
    | Reproduce pos e =>
      simp [process_prey_actions, reproduce_positions, spawn_prey_spec, hrep, ih]
      omega

/-- The spawned predators carry the consecutive ids from the counter. -/
theorem spawn_predators_spec_ids (pp : PredatorParameters) :
    ∀ (ps : List Vector2) (nid : ℕ),
    (spawn_predators_spec pp ps nid).map Predator.id = List.range' nid ps.length := by
  intro ps
  induction ps with
  | nil => intro nid; simp [spawn_predators_spec]
  | cons p rest ih =>
    intro nid
    simp [spawn_predators_spec, List.range'_succ, ih, Predator.id, Predator.new, BaseAgent.new]

/-- The spawned prey carry the consecutive ids from the counter. -/
theorem spawn_prey_spec_ids (yp : PreyParameters) :
    ∀ (ps : List Vector2) (nid : ℕ),
    (spawn_prey_spec yp ps nid).map Prey.id = List.range' nid ps.length := by
  intro ps
  induction ps with
  | nil => intro nid; simp [spawn_prey_spec]
  | cons p rest ih =>
    intro nid
    simp [spawn_prey_spec, List.range'_succ, ih, Prey.id, Prey.new, BaseAgent.new]

/-- C3 corrected: with reproduction enabled, every committed Reproduce request
creates a same-species agent with a freshly allocated consecutive id at the
requested position, but its energy is the initial_energy of the current world
parameters for that species — the energy carried in the action is ignored. -/
theorem C3_reproduce_commit (w : World) (predator_actions prey_actions : List AgentAction)
    (hrep : w.params.simulation.enable_reproduction = true) :
    (w.process_actions predator_actions prey_actions).predators =
      w.predators ++ spawn_predators_spec w.params.predator
        (reproduce_positions predator_actions) w.next_id ∧
    (w.process_actions predator_actions prey_actions).prey =
      (w.prey.filter (fun y => ! (consumed_ids predator_actions).contains y.id)) ++
        spawn_prey_spec w.params.prey (reproduce_positions prey_actions)
          (w.next_id + (reproduce_positions predator_actions).length) ∧
    (w.process_actions predator_actions prey_actions).next_id =
      w.next_id + (reproduce_positions predator_actions).length +
        (reproduce_positions prey_actions).length ∧
    (∀ nid pos pp, (Predator.new nid pos pp).energy = pp.initial_energy ∧
      (Predator.new nid pos pp).position = pos ∧ (Predator.new nid pos pp).id = nid) ∧
    (∀ nid pos yp, (Prey.new nid pos yp).energy = yp.initial_energy ∧
      (Prey.new nid pos yp).position = pos ∧ (Prey.new nid pos yp).id = nid) ∧
    (spawn_predators_spec w.params.predator (reproduce_positions predator_actions)
      w.next_id).map Predator.id =
        List.range' w.next_id (reproduce_positions predator_actions).length ∧
    (spawn_prey_spec w.params.prey (reproduce_positions prey_actions)
      (w.next_id + (reproduce_positions predator_actions).length)).map Prey.id =
        List.range' (w.next_id + (reproduce_positions predator_actions).length)
          (reproduce_positions prey_actions).length := by
  have hp := process_predator_actions_spec w.params hrep predator_actions w.next_id
  have hy := process_prey_actions_spec w.params hrep prey_actions
    (w.next_id + (reproduce_positions predator_actions).length)
  refine ⟨?_, ?_, ?_, fun nid pos pp => ⟨rfl, rfl, rfl⟩, fun nid pos yp => ⟨rfl, rfl, rfl⟩,
    spawn_predators_spec_ids _ _ _, spawn_prey_spec_ids _ _ _⟩ <;>
    simp only [World.process_actions, hp, hy]

/-- Counterexample for C3: a committed Reproduce action carrying energy 42
creates a predator with energy 100 (the parameter initial_energy), so the
energy carried in the action is not the energy of the new agent. -/
theorem C3_counterexample :
    cex3_world.params.simulation.enable_reproduction = true ∧
    ((cex3_world.process_actions [AgentAction.Reproduce ⟨20, 20⟩ 42] []).predators.map
      Predator.energy) = [(100 : ℝ)] ∧ ((100 : ℝ) ≠ 42) := by
  refine ⟨rfl, ?_, by norm_num⟩
  simp [World.process_actions, process_predator_actions, process_prey_actions,
    cex3_world, Parameters.default, SimulationParameters.default, PredatorParameters.default,
    Predator.new, BaseAgent.new, Predator.energy]

/-- Witness for C3: the amended commit applied to one concrete Reproduce. -/
theorem C3_witness :
    cex3_world.params.simulation.enable_reproduction = true ∧
    (cex3_world.process_actions [AgentAction.Reproduce ⟨20, 20⟩ 42] []).predators =
      cex3_world.predators ++ spawn_predators_spec cex3_world.params.predator
        (reproduce_positions [AgentAction.Reproduce ⟨20, 20⟩ 42]) cex3_world.next_id := by
  have hrep : cex3_world.params.simulation.enable_reproduction = true := rfl
  exact ⟨hrep, (C3_reproduce_commit cex3_world [AgentAction.Reproduce ⟨20, 20⟩ 42] [] hrep).1⟩

/-- After list-level enforcement the total never exceeds the ceiling. -/
theorem enforce_lists_total_le {α β : Type} (preds : List α) (py : List β) (m : ℕ) :
    (enforce_max_agents_lists preds py m).1.length +
      (enforce_max_agents_lists preds py m).2.length ≤ m := by
  simp only [enforce_max_agents_lists]
  split_ifs with h1 h2 h3 <;>
    simp only [List.length_drop, List.length_nil] <;> omega

/-- After World::enforce_max_agents the total never exceeds the ceiling. -/
theorem world_enforce_total_le (w : World) :
    (w.enforce_max_agents).total_agents ≤ w.params.simulation.max_agents := by
  simp only [World.enforce_max_agents, World.total_agents]
  exact enforce_lists_total_le w.predators w.prey w.params.simulation.max_agents

/-- C4: one tick always ends with the total population at most max_agents, and
whenever the pre-enforcement total exceeds the ceiling the overflow is dropped
from the front of the predator list first, then from the front of the prey
list. -/
theorem C4_capacity_enforced {α β : Type} (w : World) (predator_draws : ℕ → ℝ × ℝ)
    (prey_draws : ℕ → ℝ × ℝ × ℝ) (preds : List α) (py : List β) (m : ℕ)
    (hover : m < preds.length + py.length) :
    (w.update predator_draws prey_draws).total_agents ≤ w.params.simulation.max_agents ∧
    enforce_max_agents_lists preds py m =
      (preds.drop (preds.length + py.length - m),
        py.drop (preds.length + py.length - m - preds.length)) := by
  constructor
  · simp only [World.update]
    exact world_enforce_total_le _
  · simp only [enforce_max_agents_lists]
    rw [if_pos hover]
    split_ifs with h2 h3
    · have hz : preds.length + py.length - m - preds.length = 0 := by omega
      rw [hz, List.drop_zero]
    · rw [List.drop_eq_nil_of_le
        (by omega : preds.length ≤ preds.length + py.length - m)]
    · rw [List.drop_eq_nil_of_le
        (by omega : preds.length ≤ preds.length + py.length - m),
        List.drop_eq_nil_of_le
        (by omega : py.length ≤ preds.length + py.length - m - preds.length)]

/-- Witness for C4 at a concrete world and concrete overfull lists. -/
theorem C4_witness :
    (2 < ([0, 1, 2] : List ℕ).length + ([true] : List Bool).length) ∧
    (cex3_world.update (fun _ => (0, 0)) (fun _ => (0, 0, 0))).total_agents ≤
      cex3_world.params.simulation.max_agents ∧
    enforce_max_agents_lists ([0, 1, 2] : List ℕ) ([true] : List Bool) 2 =
      (([0, 1, 2] : List ℕ).drop (([0, 1, 2] : List ℕ).length + ([true] : List Bool).length - 2),
        ([true] : List Bool).drop
          (([0, 1, 2] : List ℕ).length + ([true] : List Bool).length - 2 -
            ([0, 1, 2] : List ℕ).length)) := by
  have hover : 2 < ([0, 1, 2] : List ℕ).length + ([true] : List Bool).length := by
    simp
  have hr := C4_capacity_enforced cex3_world (fun _ => (0, 0)) (fun _ => (0, 0, 0))
    ([0, 1, 2] : List ℕ) ([true] : List Bool) 2 hover
  exact ⟨hover, hr.1, hr.2⟩

/-- C10: when two predators both see the same minimum-distance prey within
their capture distances, each gains energy_gain_from_prey during its decision,
while the commit phase removes exactly the prey with that id and creates or
renumbers nothing, so the combined gain is not tied to the single removal. -/
theorem C10_double_capture (p q : Predator) (ws : WorldState) (r1 r2 s1 s2 : ℝ)
    (t : ℕ) (tp : Vector2) (d : ℝ) (w : World)
    (hpal : p.params.energy_per_tick * ws.dt < p.base.energy)
    (hqal : q.params.energy_per_tick * ws.dt < q.base.energy)
    (hfind : Predator.find_nearest_prey ws = Option.some (t, tp, d))
    (hpcap : d ≤ p.params.capture_distance)
    (hqcap : d ≤ q.params.capture_distance) :
    (p.update ws r1 r2).2 = AgentAction.Consumed t ∧
    (q.update ws s1 s2).2 = AgentAction.Consumed t ∧
    (p.update ws r1 r2).1.base.energy =
      p.base.energy - p.params.energy_per_tick * ws.dt + p.params.energy_gain_from_prey ∧
    (q.update ws s1 s2).1.base.energy =
      q.base.energy - q.params.energy_per_tick * ws.dt + q.params.energy_gain_from_prey ∧
    (w.process_actions [AgentAction.Consumed t, AgentAction.Consumed t] []).prey =
      w.prey.filter (fun y => ! (y.id == t)) ∧
    (w.process_actions [AgentAction.Consumed t, AgentAction.Consumed t] []).predators =
      w.predators ∧
    (w.process_actions [AgentAction.Consumed t, AgentAction.Consumed t] []).next_id =
      w.next_id := by
  have hp := predator_update_capture p ws r1 r2 t tp d hpal hfind hpcap
  have hq := predator_update_capture q ws s1 s2 t tp d hqal hfind hqcap
  have hpe : (p.update ws r1 r2).1.base.energy =
      p.base.energy - p.params.energy_per_tick * ws.dt + p.params.energy_gain_from_prey := by
    rw [hp.2.1, BaseAgent.energy_add_energy, BaseAgent.energy_increment_age,
      BaseAgent.energy_consume_energy, max_eq_left (by linarith)]
  have hqe : (q.update ws s1 s2).1.base.energy =
      q.base.energy - q.params.energy_per_tick * ws.dt + q.params.energy_gain_from_prey := by
    rw [hq.2.1, BaseAgent.energy_add_energy, BaseAgent.energy_increment_age,
      BaseAgent.energy_consume_energy, max_eq_left (by linarith)]
  have hfun : (fun y : Prey => ! (([t, t] : List ℕ).contains y.id)) =
      (fun y : Prey => ! (y.id == t)) := by
    funext y
    by_cases hy : y.id = t
    · simp [List.contains, hy]
    · simp [List.contains, hy]
  refine ⟨hp.1, hq.1, hpe, hqe, ?_, ?_, ?_⟩ <;>
    simp only [World.process_actions, process_predator_actions, process_prey_actions,
      List.append_nil, hfun]

/-- Witness for C10: the same default predator decided twice against wit2_ws;
the combined gain of 100 exceeds the removed prey energy of 80. -/
theorem C10_witness :
    (wit2_pred.params.energy_per_tick * wit2_ws.dt < wit2_pred.base.energy ∧
      Predator.find_nearest_prey wit2_ws = Option.some (7, ⟨1, 0⟩, 2) ∧
      (2 : ℝ) ≤ wit2_pred.params.capture_distance) ∧
    (wit2_pred.update wit2_ws 0 0).2 = AgentAction.Consumed 7 ∧
    (wit2_pred.update wit2_ws 1 1).2 = AgentAction.Consumed 7 ∧
    (wit10_world.process_actions
      [AgentAction.Consumed 7, AgentAction.Consumed 7] []).prey = [] ∧
    wit2_pred.params.energy_gain_from_prey + wit2_pred.params.energy_gain_from_prey >
      (Prey.new 7 ⟨1, 0⟩ PreyParameters.default).energy := by
  have h1 : wit2_pred.params.energy_per_tick * wit2_ws.dt < wit2_pred.base.energy := by
    norm_num [wit2_pred, wit2_ws, Predator.new, BaseAgent.new, PredatorParameters.default]
  have h2 : Predator.find_nearest_prey wit2_ws = Option.some (7, ⟨1, 0⟩, 2) := rfl
  have h3 : (2 : ℝ) ≤ wit2_pred.params.capture_distance := by
    norm_num [wit2_pred, Predator.new, PredatorParameters.default]
  have hr := C10_double_capture wit2_pred wit2_pred wit2_ws 0 0 1 1 7 ⟨1, 0⟩ 2
    wit10_world h1 h1 h2 h3 h3
  refine ⟨⟨h1, h2, h3⟩, hr.1, hr.2.1, ?_, ?_⟩
  · rw [hr.2.2.2.2.1]
    simp [wit10_world, Prey.new, Prey.id, BaseAgent.new]
  · norm_num [wit2_pred, Predator.new, PredatorParameters.default,
      Prey.new, Prey.energy, BaseAgent.new, PreyParameters.default]

end

